import Mathlib

/-!
Shallow embedding of the Wanderlust itinerary store and view-model
(`js/config.js` bundle: `itinerarios.js` page logic, `utils.js` storage
helpers, and the landing-page search history of `main.js`).

JavaScript strings are modelled as Lean `String`; the string operations
the code relies on (`trim`, `toLowerCase`, `includes`, lexicographic
`<`) are implemented below over `String.data` so that every definition
is executable by the kernel.  Numbers produced by `parseFloat` are
modelled as normalized fractions `JsNum` (the code only parses decimal
literals, compares with zero and stores the value), with a fuel-driven
gcd so every construction reduces in the kernel; normalization makes
structural equality coincide with JavaScript numeric equality.
`JSON.parse` failure / `localStorage` absence are modelled with
`Option`.
-/

/-- gcd by fuel-bounded Euclid; `fuel ≥ m` suffices because the first
argument strictly decreases. -/
def gcdFuel : Nat → Nat → Nat → Nat
  | 0, _, n => n
  | f + 1, m, n => if m = 0 then n else gcdFuel f (n % m) m

/-- Euclidean gcd, kernel-computable. -/
def natGcd (m n : Nat) : Nat :=
  gcdFuel (m + 1) m n

/-- A JavaScript number that arises in this code base: an exact decimal
value kept as a normalized fraction. -/
structure JsNum where
  num : Int
  den : Nat
deriving DecidableEq

/-- Normalize a fraction by dividing out the gcd; used by every
constructor so that `JsNum` values are canonical. -/
def normJsNum (n : Int) (d : Nat) : JsNum :=
  let g := natGcd n.natAbs d
  if g = 0 then ⟨0, 0⟩ else ⟨n / (g : Int), d / g⟩

/-- Characters removed by JavaScript `String.prototype.trim` (ASCII
whitespace, line terminators and NBSP / BOM). -/
def jsWhitespaceChar (c : Char) : Bool :=
  c = ' ' || c = '\t' || c = '\n' || c = '\r' ||
  c = '\x0b' || c = '\x0c' || c = ' ' || c = '﻿'

/-- `String.prototype.trim`: drop whitespace from both ends. -/
def jsTrim (s : String) : String :=
  ⟨((s.data.dropWhile jsWhitespaceChar).reverse.dropWhile jsWhitespaceChar).reverse⟩

/-- `String.prototype.toLowerCase` (ASCII letters, which is all the
code's data needs). -/
def jsToLower (s : String) : String :=
  ⟨s.data.map Char.toLower⟩

/-- List prefix test used by the substring search. -/
def prefB : List Char → List Char → Bool
  | [], _ => true
  | _ :: _, [] => false
  | a :: as, b :: bs => decide (a = b) && prefB as bs

/-- Occurrence of `pat` inside `l` (at any position). -/
def substrB (pat : List Char) : List Char → Bool
  | [] => pat.isEmpty
  | c :: t => prefB pat (c :: t) || substrB pat t

/-- JavaScript `s.includes(sub)`. -/
def jsIncludes (s sub : String) : Bool :=
  substrB sub.data s.data

/-- Lexicographic `<` on code units, as JavaScript compares strings. -/
def lexLt : List Char → List Char → Bool
  | [], [] => false
  | [], _ :: _ => true
  | _ :: _, [] => false
  | a :: as, b :: bs => decide (a < b) || (decide (a = b) && lexLt as bs)

/-- JavaScript `a < b` on strings. -/
def jsStrLt (a b : String) : Bool :=
  lexLt a.data b.data

/-- An itinerary record as created by the page (`crearItinerario` /
`handleGuardar` in `itinerarios.js`). -/
structure Itinerario where
  id : String
  nombre : String
  destino : String
  fechaInicio : String
  fechaFin : String
  estado : String
  budget : JsNum
  notas : String
  creadoEn : String
  actualizadoEn : Option String
deriving DecidableEq

/-- A partial update payload for `editarItinerario`: `none` models a
field absent from the spread-merged `datos` object. -/
structure Datos where
  nombre : Option String
  destino : Option String
  fechaInicio : Option String
  fechaFin : Option String
  estado : Option String
  budget : Option JsNum
  notas : Option String
deriving DecidableEq

/-- The object spread `{...it, ...datos, actualizadoEn: new Date().toISOString()}`
performed by `editarItinerario`. -/
def mergeDatos (it : Itinerario) (d : Datos) (ahora : String) : Itinerario :=
  { id := it.id
    nombre := d.nombre.getD it.nombre
    destino := d.destino.getD it.destino
    fechaInicio := d.fechaInicio.getD it.fechaInicio
    fechaFin := d.fechaFin.getD it.fechaFin
    estado := d.estado.getD it.estado
    budget := d.budget.getD it.budget
    notas := d.notas.getD it.notas
    creadoEn := it.creadoEn
    actualizadoEn := some ahora }

/-- `editarItinerario(id, datos)`: find the first record with the id,
replace it by the merged record, return `(true, updated list)`;
return `(false, unchanged list)` when no record matches. -/
def editarItinerario : List Itinerario → String → Datos → String → Bool × List Itinerario
  | [], _, _, _ => (false, [])
  | it :: rest, i, d, ahora =>
    if it.id = i then
      (true, mergeDatos it d ahora :: rest)
    else
      let r := editarItinerario rest i d ahora
      (r.1, it :: r.2)

/-- `eliminarItinerario(id)`: `state.itinerarios.filter(it => it.id !== id)`. -/
def eliminarItinerario (its : List Itinerario) (i : String) : List Itinerario :=
  its.filter (fun it => decide (it.id ≠ i))

/-- `Nat.digitChar`-based rendering of `n.toString(16)` (JavaScript's
lowercase hexadecimal).  The first argument is fuel bounding the
recursion depth. -/
def natToHexAux : Nat → Nat → List Char
  | 0, _ => []
  | f + 1, n => if n = 0 then [] else natToHexAux f (n / 16) ++ [Nat.digitChar (n % 16)]

/-- JavaScript `n.toString(16)` for a natural number. -/
def natToHex (n : Nat) : String :=
  if n = 0 then "0" else ⟨natToHexAux (n + 1) n⟩

/-- The complete `datos` object built by `handleGuardar` (all seven
fields always present). -/
structure DatosCompletos where
  nombre : String
  destino : String
  fechaInicio : String
  fechaFin : String
  estado : String
  budget : JsNum
  notas : String
deriving DecidableEq

/-- View a complete `datos` object as an update payload (every field
present). -/
def datosDeCompletos (d : DatosCompletos) : Datos :=
  { nombre := some d.nombre
    destino := some d.destino
    fechaInicio := some d.fechaInicio
    fechaFin := some d.fechaFin
    estado := some d.estado
    budget := some d.budget
    notas := some d.notas }

/-- `crearItinerario(datos)` invoked at `Date.now() = t`: build the new
record `{id: 'it_' + t.toString(16), ...datos, creadoEn}` and prepend it. -/
def crearItinerario (d : DatosCompletos) (t : Nat) (creado : String)
    (its : List Itinerario) : Itinerario × List Itinerario :=
  let nuevo : Itinerario :=
    { id := "it_" ++ natToHex t
      nombre := d.nombre
      destino := d.destino
      fechaInicio := d.fechaInicio
      fechaFin := d.fechaFin
      estado := d.estado
      budget := d.budget
      notas := d.notas
      creadoEn := creado
      actualizadoEn := none }
  (nuevo, nuevo :: its)

/-- The page state consulted by `getItinerariosFiltrados`. -/
structure PageState where
  itinerarios : List Itinerario
  filtroActual : String
  busqueda : String

/-- `getItinerariosFiltrados()`: status filter (unless `'todos'`), then
case-insensitive substring search over `destino` / `nombre` with the
lowercased (untrimmed) query, applied only when the trimmed query is
non-empty. -/
def getItinerariosFiltrados (st : PageState) : List Itinerario :=
  let lista := st.itinerarios
  let lista2 :=
    if st.filtroActual ≠ "todos" then
      lista.filter (fun it => decide (it.estado = st.filtroActual))
    else lista
  if jsTrim st.busqueda ≠ "" then
    let q := jsToLower st.busqueda
    lista2.filter (fun it =>
      jsIncludes (jsToLower it.destino) q || jsIncludes (jsToLower it.nombre) q)
  else lista2

/-- The raw form field values read by `validarForm` / `handleGuardar`
(the `.value` of each input; `budget` still a raw string). -/
structure FormRaw where
  nombre : String
  destino : String
  fechaInicio : String
  fechaFin : String
  estado : String
  budget : String
  notas : String
deriving DecidableEq

/-- The per-field `has-error` markers set by `validarForm`. -/
structure ErroresForm where
  nombre : Bool
  destino : Bool
  fechaInicio : Bool
  fechaFin : Bool
deriving DecidableEq

/-- `validarForm()`: trim name and destination, flag each violated rule
independently, and return the conjunction as the overall verdict. -/
def validarForm (f : FormRaw) : ErroresForm × Bool :=
  let nombre := jsTrim f.nombre
  let destino := jsTrim f.destino
  let eNombre : Bool := decide (nombre = "")
  let eDestino : Bool := decide (destino = "")
  let eInicio : Bool := decide (f.fechaInicio = "")
  let eFin : Bool :=
    decide (f.fechaFin = "") ||
      (decide (f.fechaInicio ≠ "") && jsStrLt f.fechaFin f.fechaInicio)
  ({ nombre := eNombre, destino := eDestino, fechaInicio := eInicio, fechaFin := eFin },
   !(eNombre || eDestino || eInicio || eFin))

/-- Digit run consumed left to right: accumulated value, number of
digits consumed, and the remaining characters. -/
def readDigits (acc k : Nat) : List Char → Nat × Nat × List Char
  | [] => (acc, k, [])
  | c :: t =>
    if c.isDigit then readDigits (10 * acc + (c.toNat - 48)) (k + 1) t
    else (acc, k, c :: t)

/-- Recognized exponent suffix (`e` / `E`, optional sign, digits):
exponent sign and value, or `none` when `parseFloat` would stop before
the marker. -/
def readExponent (l : List Char) : Option (Int × Nat) :=
  match l with
  | 'e' :: t =>
    let st : Int × List Char :=
      match t with
      | '-' :: u => (-1, u)
      | '+' :: u => (1, u)
      | _ => (1, t)
    let epart := readDigits 0 0 st.2
    if epart.2.1 = 0 then none else some (st.1, epart.1)
  | 'E' :: t =>
    let st : Int × List Char :=
      match t with
      | '-' :: u => (-1, u)
      | '+' :: u => (1, u)
      | _ => (1, t)
    let epart := readDigits 0 0 st.2
    if epart.2.1 = 0 then none else some (st.1, epart.1)
  | _ => none

/-- JavaScript `parseFloat`: skip leading whitespace, optional sign,
decimal mantissa, optional exponent; ignore trailing garbage; `none`
models `NaN` (no digit could be consumed). -/
def jsParseFloat (s : String) : Option JsNum :=
  let l := s.data.dropWhile jsWhitespaceChar
  let sl : Int × List Char :=
    match l with
    | '-' :: t => (-1, t)
    | '+' :: t => (1, t)
    | _ => (1, l)
  let ipart := readDigits 0 0 sl.2
  let fpart :=
    match ipart.2.2 with
    | '.' :: t => readDigits 0 0 t
    | _ => (0, 0, ipart.2.2)
  if ipart.2.1 = 0 ∧ fpart.2.1 = 0 then none
  else
    let mantNum : Int := sl.1 * ((ipart.1 * 10 ^ fpart.2.1 + fpart.1 : Nat) : Int)
    let mantDen : Nat := 10 ^ fpart.2.1
    match readExponent fpart.2.2 with
    | some (es, ev) =>
      if es < 0 then some (normJsNum mantNum (mantDen * 10 ^ ev))
      else some (normJsNum (mantNum * (10 ^ ev : Nat)) mantDen)
    | none => some (normJsNum mantNum mantDen)

/-- `parseFloat(input) || 1500` as in `handleGuardar`: `NaN` (`none`)
and `0` are falsy, everything else is kept. -/
def coerceBudget (s : String) : JsNum :=
  match jsParseFloat s with
  | none => ⟨1500, 1⟩
  | some x => if x.num = 0 then ⟨1500, 1⟩ else x

/-- The gate and payload construction of `handleGuardar()`: `none` when
`validarForm` rejects, otherwise the `datos` object it builds. -/
def handleGuardarDatos (f : FormRaw) : Option DatosCompletos :=
  if (validarForm f).2 then
    some
      { nombre := jsTrim f.nombre
        destino := jsTrim f.destino
        fechaInicio := f.fechaInicio
        fechaFin := f.fechaFin
        estado := f.estado
        budget := coerceBudget f.budget
        notas := jsTrim f.notas }
  else none

/-- Collections (with the multiset of `Date.now()` values used by the
creates) reachable from an empty store through the page's save and
delete handlers: `handleGuardar` in create mode, `handleGuardar` in
edit mode, and `handleEliminar`. -/
inductive ReachableT : List Itinerario → List Nat → Prop
  | init : ReachableT [] []
  | crear (st : List Itinerario) (ts : List Nat) (f : FormRaw) (d : DatosCompletos)
      (t : Nat) (creado : String) :
      ReachableT st ts → handleGuardarDatos f = some d →
      ReachableT (crearItinerario d t creado st).2 (t :: ts)
  | editar (st : List Itinerario) (ts : List Nat) (f : FormRaw) (d : DatosCompletos)
      (i ahora : String) :
      ReachableT st ts → handleGuardarDatos f = some d →
      ReachableT (editarItinerario st i (datosDeCompletos d) ahora).2 ts
  | eliminar (st : List Itinerario) (ts : List Nat) (i : String) :
      ReachableT st ts → ReachableT (eliminarItinerario st i) ts

/-- Split a character list at every `'-'`. -/
def splitOnDash : List Char → List (List Char)
  | [] => [[]]
  | c :: t =>
    if c = '-' then [] :: splitOnDash t
    else
      match splitOnDash t with
      | [] => [[c]]
      | g :: gs => (c :: g) :: gs

/-- Value of an all-digit group, `none` otherwise. -/
def digitosVal (l : List Char) : Option Nat :=
  if l ≠ [] ∧ l.all Char.isDigit then
    some (l.foldl (fun a c => 10 * a + (c.toNat - 48)) 0)
  else none

/-- Length of a month in the proleptic Gregorian calendar. -/
def diasEnMes (y m : Nat) : Nat :=
  if m = 2 then
    if y % 4 = 0 ∧ (y % 100 ≠ 0 ∨ y % 400 = 0) then 29 else 28
  else if m = 4 ∨ m = 6 ∨ m = 9 ∨ m = 11 then 30
  else 31

/-- `new Date("YYYY-MM-DD")` succeeding: fixed-width ISO layout and a
real calendar date. -/
def parseFechaISO (s : String) : Option (Nat × Nat × Nat) :=
  match splitOnDash s.data with
  | [ys, ms, ds] =>
    if ys.length = 4 ∧ ms.length = 2 ∧ ds.length = 2 then
      match digitosVal ys, digitosVal ms, digitosVal ds with
      | some y, some m, some d =>
        if 1 ≤ m ∧ m ≤ 12 ∧ 1 ≤ d ∧ d ≤ diasEnMes y m then some (y, m, d) else none
      | _, _, _ => none
    else none
  | _ => none

/-- Days since the epoch 1970-01-01 of a civil date (the value behind
`new Date("YYYY-MM-DD").getTime() / 86400000` for UTC-parsed ISO dates). -/
def diasDesdeEpoch (y m d : Nat) : Int :=
  let yi : Int := if m ≤ 2 then (y : Int) - 1 else (y : Int)
  let era : Int := yi.fdiv 400
  let yoe : Int := yi - era * 400
  let mp : Int := if m ≤ 2 then (m : Int) + 9 else (m : Int) - 3
  let doy : Int := (153 * mp + 2).fdiv 5 + (d : Int) - 1
  let doe : Int := yoe * 365 + yoe.fdiv 4 - yoe.fdiv 100 + doy
  era * 146097 + doe - 719468

/-- `Math.ceil(a / b)` for integers, `b > 0`. -/
def ceilDiv (a b : Int) : Int :=
  (a + b - 1).fdiv b

/-- `calcularDias(fechaInicio, fechaFin)`: millisecond difference of the
two parsed dates, `Math.max(1, Math.ceil(diff / 86400000) + 1)`;
`none` models the `NaN` result on unparseable dates. -/
def calcularDias (fechaInicio fechaFin : String) : Option Int :=
  match parseFechaISO fechaInicio, parseFechaISO fechaFin with
  | some (y1, m1, d1), some (y2, m2, d2) =>
    let diff := diasDesdeEpoch y2 m2 d2 * 86400000 - diasDesdeEpoch y1 m1 d1 * 86400000
    some (max 1 (ceilDiv diff 86400000 + 1))
  | _, _ => none

/-- One persisted search-history entry. -/
structure SearchEntry where
  query : String
  timestamp : String
deriving DecidableEq

/-- `saveSearchToHistory(query)` acting on the stored array: normalize,
drop previous occurrences of the same query, prepend, cap at 10. -/
def saveSearchToHistory (historial : List SearchEntry) (q ts : String) : List SearchEntry :=
  let normalizedQuery := jsToLower (jsTrim q)
  let filtrado := historial.filter (fun e => decide (e.query ≠ normalizedQuery))
  (({ query := normalizedQuery, timestamp := ts } : SearchEntry) :: filtrado).take 10

/-- `getStorage(key, defaultValue)`: `localStorage.getItem` modelled as
`Option String`, `JSON.parse` (specialized to the expected type) as a
function into `Option`; a falsy item or a parse failure yields the
default, and no failure escapes. -/
def getStorage {α : Type} (getItem : Option String) (parse : String → Option α)
    (defaultValue : α) : α :=
  match getItem with
  | none => defaultValue
  | some item => if item = "" then defaultValue else (parse item).getD defaultValue

/-- `cargarItinerarios()`: `state.itinerarios = getStorage(STORAGE_KEY, [])`. -/
def cargarItinerarios (getItem : Option String)
    (parse : String → Option (List Itinerario)) : List Itinerario :=
  getStorage getItem parse []

/-- The claim-side conjunctive predicate of spec section 4.4: status
filter AND case-insensitive substring search. -/
def filtroClaim (st : PageState) (it : Itinerario) : Bool :=
  (decide (st.filtroActual = "todos") || decide (it.estado = st.filtroActual)) &&
  (decide (jsTrim st.busqueda = "") ||
    (jsIncludes (jsToLower it.destino) (jsToLower st.busqueda) ||
     jsIncludes (jsToLower it.nombre) (jsToLower st.busqueda)))

/-- Example itinerary used to exhibit the whitespace-sensitivity of the
search. -/
def itTokyoDemo : Itinerario :=
  { id := "it_1", nombre := "Vacaciones", destino := "Tokyo",
    fechaInicio := "2026-03-01", fechaFin := "2026-03-05",
    estado := "planificando", budget := ⟨1500, 1⟩, notas := "",
    creadoEn := "2026-02-01T00:00:00.000Z", actualizadoEn := none }

/-- Demonstration form input accepted by `validarForm`. -/
def formDemo : FormRaw :=
  { nombre := " Viaje ", destino := "Roma", fechaInicio := "2026-01-01",
    fechaFin := "2026-01-05", estado := "planificando", budget := "800", notas := "" }

/-- The payload `handleGuardar` derives from `formDemo`. -/
def datosDemo : DatosCompletos :=
  { nombre := "Viaje", destino := "Roma", fechaInicio := "2026-01-01",
    fechaFin := "2026-01-05", estado := "planificando", budget := ⟨800, 1⟩, notas := "" }

/-- Value of a lowercase hexadecimal digit character. -/
def hexCharVal (c : Char) : Nat :=
  if c.isDigit then c.toNat - 48 else c.toNat - 87

/-- Value of a hexadecimal digit string (most significant first). -/
def hexVal (l : List Char) : Nat :=
  l.foldl (fun a c => 16 * a + hexCharVal c) 0

/-! ### Search history -/

theorem pairwise_save (historial : List SearchEntry) (q ts : String)
    (hp : List.Pairwise (fun a b => a.query ≠ b.query) historial) :
    List.Pairwise (fun a b => a.query ≠ b.query) (saveSearchToHistory historial q ts) := by
  unfold saveSearchToHistory
  apply List.Pairwise.sublist (List.take_sublist 10 _)
  constructor
  · intro b hb
    have := List.of_mem_filter hb
    simp only [decide_eq_true_eq] at this
    exact fun he => this he.symm
  · exact hp.filter _

theorem pairwise_foldl_save (ops : List (String × String)) :
    ∀ h0, List.Pairwise (fun a b => a.query ≠ b.query) h0 →
      List.Pairwise (fun a b => a.query ≠ b.query)
        (ops.foldl (fun h p => saveSearchToHistory h p.1 p.2) h0) := by
  induction ops with
  | nil => intro h0 hp; exact hp
  | cons p rest ih =>
    intro h0 hp
    exact ih _ (pairwise_save h0 p.1 p.2 hp)

/-- C8: after a save the history has at most 10 entries, the just-saved
normalized query sits at position 0 with its timestamp, every entry is
either the new one or came from the prior history, query texts stay
pairwise distinct, and any history built purely by saves (from the
empty default) has pairwise-distinct query texts. -/
theorem c8_historial (historial : List SearchEntry) (q ts : String) :
    (saveSearchToHistory historial q ts).length ≤ 10 ∧
    (saveSearchToHistory historial q ts).head? =
      some { query := jsToLower (jsTrim q), timestamp := ts } ∧
    (∀ e ∈ saveSearchToHistory historial q ts,
      e = { query := jsToLower (jsTrim q), timestamp := ts } ∨ e ∈ historial) ∧
    (List.Pairwise (fun a b => a.query ≠ b.query) historial →
      List.Pairwise (fun a b => a.query ≠ b.query) (saveSearchToHistory historial q ts)) ∧
    (∀ ops : List (String × String),
      List.Pairwise (fun a b => a.query ≠ b.query)
        (ops.foldl (fun h p => saveSearchToHistory h p.1 p.2) [])) := by
  refine ⟨?_, ?_, ?_, pairwise_save historial q ts, fun ops => pairwise_foldl_save ops [] List.Pairwise.nil⟩
  · exact List.length_take_le 10 _
  · rfl
  · intro e he
    unfold saveSearchToHistory at he
    have hmem := (List.take_sublist 10 _).subset he
    rcases List.mem_cons.mp hmem with rfl | hmem
    · exact Or.inl rfl
    · exact Or.inr (List.mem_of_mem_filter hmem)

/-- C8 witness: a first save on the empty history keeps query texts
pairwise distinct. -/
theorem c8_witness :
    List.Pairwise (fun a b => a.query ≠ b.query)
      (saveSearchToHistory [] "Tokyo" "2026-02-01T00:00:00.000Z") :=
  (c8_historial [] "Tokyo" "2026-02-01T00:00:00.000Z").2.2.2.1 List.Pairwise.nil

/-! ### Storage load -/

/-- C9: `cargarItinerarios` yields the parsed stored collection when the
item is present, non-empty and deserializes, and the empty collection
when the item is absent or deserialization fails; in every case it
yields either the empty collection or a parsed stored one, so no
failure escapes. -/
theorem c9_cargar (getItem : Option String)
    (parse : String → Option (List Itinerario)) :
    (getItem = none → cargarItinerarios getItem parse = []) ∧
    (∀ s, getItem = some s → parse s = none → cargarItinerarios getItem parse = []) ∧
    (∀ s v, getItem = some s → s ≠ "" → parse s = some v →
      cargarItinerarios getItem parse = v) ∧
    (cargarItinerarios getItem parse = [] ∨
      ∃ s, getItem = some s ∧ parse s = some (cargarItinerarios getItem parse)) := by
  refine ⟨?_, ?_, ?_, ?_⟩
  · intro h; subst h; rfl
  · intro s hg hp
    subst hg
    by_cases hs : s = "" <;> simp [cargarItinerarios, getStorage, hs, hp]
  · intro s v hg hs hp
    subst hg
    simp [cargarItinerarios, getStorage, hs, hp]
  · cases getItem with
    | none => exact Or.inl rfl
    | some s =>
      by_cases hs : s = ""
      · exact Or.inl (by simp [cargarItinerarios, getStorage, hs])
      · cases hp : parse s with
        | none => exact Or.inl (by simp [cargarItinerarios, getStorage, hs, hp])
        | some v =>
          exact Or.inr ⟨s, rfl, by simp [cargarItinerarios, getStorage, hs, hp]⟩

/-- C9 witness: a readable stored collection is loaded as-is. -/
theorem c9_witness :
    cargarItinerarios (some "x") (fun _ => some [itTokyoDemo]) = [itTokyoDemo] :=
  (c9_cargar (some "x") (fun _ => some [itTokyoDemo])).2.2.1 "x" [itTokyoDemo]
    rfl (by decide) rfl

example : natToHex 1000 = "3e8" := by decide
example : jsIncludes "tokyo" "oky" = true := by decide
example : jsIncludes "tokyo" "tokyo " = false := by decide
example : jsStrLt "2025-12-31" "2026-01-01" = true := by decide
example : jsTrim "  hola " = "hola" := by decide
example : jsParseFloat "0" = some ⟨0, 1⟩ := by decide
example : jsParseFloat "12.5" = some ⟨25, 2⟩ := by decide
example : jsParseFloat "1500.0" = some ⟨1500, 1⟩ := by decide
example : jsParseFloat "-2.5e1" = some ⟨-25, 1⟩ := by decide
example : jsParseFloat "" = none := by decide
example : jsParseFloat "abc" = none := by decide
example : coerceBudget "0" = ⟨1500, 1⟩ := by decide
example : coerceBudget "800" = ⟨800, 1⟩ := by decide
example : calcularDias "2026-03-01" "2026-03-01" = some 1 := by decide
example : calcularDias "2026-03-01" "2026-03-03" = some 3 := by decide
example : calcularDias "2026-03-01" "x" = none := by decide
example :
    validarForm
      { nombre := "", destino := "X", fechaInicio := "2026-01-01",
        fechaFin := "2025-12-31", estado := "", budget := "", notas := "" } =
    ({ nombre := true, destino := false, fechaInicio := false, fechaFin := true }, false) := by
  decide

/-! ### Helper lemmas about `editarItinerario` -/

theorem editar_not_found (i : String) (d : Datos) (a : String) :
    ∀ l : List Itinerario, (∀ it ∈ l, it.id ≠ i) →
      editarItinerario l i d a = (false, l) := by
  intro l
  induction l with
  | nil => intro _; rfl
  | cons it rest ih =>
    intro h
    have hid : ¬ it.id = i := h it (List.mem_cons_self it rest)
    simp only [editarItinerario, if_neg hid]
    rw [ih (fun x hx => h x (List.mem_cons_of_mem it hx))]

theorem editar_found (i : String) (d : Datos) (a : String) :
    ∀ pre (it : Itinerario) (post : List Itinerario), it.id = i →
      (∀ x ∈ pre, x.id ≠ i) →
      editarItinerario (pre ++ it :: post) i d a =
        (true, pre ++ mergeDatos it d a :: post) := by
  intro pre
  induction pre with
  | nil =>
    intro it post hit _
    simp [editarItinerario, hit]
  | cons y rest ih =>
    intro it post hit h
    have hy : ¬ y.id = i := h y (List.mem_cons_self y rest)
    simp only [List.cons_append, editarItinerario, if_neg hy, List.append_eq]
    rw [ih it post hit (fun x hx => h x (List.mem_cons_of_mem y hx))]

theorem mem_editar (i : String) (d : Datos) (a : String) :
    ∀ l : List Itinerario, ∀ x ∈ (editarItinerario l i d a).2,
      x ∈ l ∨ ∃ it, it ∈ l ∧ x = mergeDatos it d a := by
  intro l
  induction l with
  | nil => intro x hx; exact absurd hx (by simp [editarItinerario])
  | cons it rest ih =>
    intro x hx
    by_cases hid : it.id = i
    · simp only [editarItinerario, if_pos hid, List.mem_cons] at hx
      rcases hx with hx | hx
      · exact Or.inr ⟨it, List.mem_cons_self it rest, hx⟩
      · exact Or.inl (List.mem_cons_of_mem it hx)
    · simp only [editarItinerario, if_neg hid, List.mem_cons] at hx
      rcases hx with hx | hx
      · exact Or.inl (hx ▸ List.mem_cons_self it rest)
      · rcases ih x hx with h | ⟨w, hw, hwx⟩
        · exact Or.inl (List.mem_cons_of_mem it h)
        · exact Or.inr ⟨w, List.mem_cons_of_mem it hw, hwx⟩

theorem map_id_editar (i : String) (d : Datos) (a : String) :
    ∀ l : List Itinerario,
      ((editarItinerario l i d a).2).map Itinerario.id = l.map Itinerario.id := by
  intro l
  induction l with
  | nil => rfl
  | cons it rest ih =>
    by_cases hid : it.id = i
    · simp [editarItinerario, if_pos hid, mergeDatos]
    · simp only [editarItinerario, if_neg hid, List.map_cons]
      rw [ih]

/-- C1: edit of an absent id returns false and leaves the collection
unchanged; otherwise the first matching record is replaced by the
shallow merge of the supplied fields, `actualizadoEn` is stamped, the
call returns true, and every field not supplied (name, destination,
dates, status, budget, notes, as well as `id` and `creadoEn`) keeps its
previous value. -/
theorem c1_editar_contrato (l : List Itinerario) (i : String) (d : Datos) (ahora : String) :
    ((∀ it ∈ l, it.id ≠ i) → editarItinerario l i d ahora = (false, l)) ∧
    (∀ pre (it : Itinerario) (post : List Itinerario),
      l = pre ++ it :: post → it.id = i → (∀ x ∈ pre, x.id ≠ i) →
      editarItinerario l i d ahora = (true, pre ++ mergeDatos it d ahora :: post) ∧
      (mergeDatos it d ahora).actualizadoEn = some ahora ∧
      (mergeDatos it d ahora).id = it.id ∧
      (mergeDatos it d ahora).creadoEn = it.creadoEn ∧
      (∀ v, d.nombre = some v → (mergeDatos it d ahora).nombre = v) ∧
      (∀ v, d.estado = some v → (mergeDatos it d ahora).estado = v) ∧
      (d.nombre = none → (mergeDatos it d ahora).nombre = it.nombre) ∧
      (d.destino = none → (mergeDatos it d ahora).destino = it.destino) ∧
      (d.fechaInicio = none → (mergeDatos it d ahora).fechaInicio = it.fechaInicio) ∧
      (d.fechaFin = none → (mergeDatos it d ahora).fechaFin = it.fechaFin) ∧
      (d.estado = none → (mergeDatos it d ahora).estado = it.estado) ∧
      (d.budget = none → (mergeDatos it d ahora).budget = it.budget) ∧
      (d.notas = none → (mergeDatos it d ahora).notas = it.notas)) := by
  constructor
  · exact editar_not_found i d ahora l
  · intro pre it post hl hit hpre
    subst hl
    refine ⟨editar_found i d ahora pre it post hit hpre, rfl, rfl, rfl, ?_, ?_, ?_, ?_, ?_, ?_, ?_, ?_, ?_⟩ <;>
      intros <;> simp_all [mergeDatos]

/-- C1 witness: a two-record collection edited at the second record's id
with a status-only payload. -/
theorem c1_witness :
    editarItinerario
        [{ id := "it_a", nombre := "N1", destino := "D1", fechaInicio := "2026-01-01",
           fechaFin := "2026-01-02", estado := "planificando", budget := ⟨100, 1⟩,
           notas := "", creadoEn := "c1", actualizadoEn := none },
         { id := "it_b", nombre := "N2", destino := "D2", fechaInicio := "2026-02-01",
           fechaFin := "2026-02-03", estado := "planificando", budget := ⟨200, 1⟩,
           notas := "", creadoEn := "c2", actualizadoEn := none }]
        "it_b"
        { nombre := none, destino := none, fechaInicio := none, fechaFin := none,
          estado := some "confirmado", budget := none, notas := none }
        "2026-02-10T00:00:00.000Z" =
      (true,
        [{ id := "it_a", nombre := "N1", destino := "D1", fechaInicio := "2026-01-01",
           fechaFin := "2026-01-02", estado := "planificando", budget := ⟨100, 1⟩,
           notas := "", creadoEn := "c1", actualizadoEn := none },
         { id := "it_b", nombre := "N2", destino := "D2", fechaInicio := "2026-02-01",
           fechaFin := "2026-02-03", estado := "confirmado", budget := ⟨200, 1⟩,
           notas := "", creadoEn := "c2", actualizadoEn := some "2026-02-10T00:00:00.000Z" }]) := by
  have h :=
    (c1_editar_contrato
      [{ id := "it_a", nombre := "N1", destino := "D1", fechaInicio := "2026-01-01",
         fechaFin := "2026-01-02", estado := "planificando", budget := ⟨100, 1⟩,
         notas := "", creadoEn := "c1", actualizadoEn := none },
       { id := "it_b", nombre := "N2", destino := "D2", fechaInicio := "2026-02-01",
         fechaFin := "2026-02-03", estado := "planificando", budget := ⟨200, 1⟩,
         notas := "", creadoEn := "c2", actualizadoEn := none }]
      "it_b"
      { nombre := none, destino := none, fechaInicio := none, fechaFin := none,
        estado := some "confirmado", budget := none, notas := none }
      "2026-02-10T00:00:00.000Z").2
      [{ id := "it_a", nombre := "N1", destino := "D1", fechaInicio := "2026-01-01",
         fechaFin := "2026-01-02", estado := "planificando", budget := ⟨100, 1⟩,
         notas := "", creadoEn := "c1", actualizadoEn := none }]
      { id := "it_b", nombre := "N2", destino := "D2", fechaInicio := "2026-02-01",
        fechaFin := "2026-02-03", estado := "planificando", budget := ⟨200, 1⟩,
        notas := "", creadoEn := "c2", actualizadoEn := none }
      [] rfl rfl (by decide)
  rw [h.1]
  rfl

/-! ### Filter / search projection -/

theorem filtrados_eq_filter (st : PageState) :
    getItinerariosFiltrados st = st.itinerarios.filter (filtroClaim st) := by
  unfold getItinerariosFiltrados filtroClaim
  by_cases h1 : st.filtroActual = "todos" <;> by_cases h2 : jsTrim st.busqueda = "" <;>
    simp [h1, h2, List.filter_filter]
  exact List.filter_congr (fun x _ => Bool.and_comm _ _)

/-- C2: the projection equals a single conservative filter of the source
collection with the conjunctive status/search predicate; it is a
sublist of the source (order preserved, source untouched), and a record
survives iff it passes the status test and the search test. -/
theorem c2_proyeccion_filtro (st : PageState) :
    getItinerariosFiltrados st = st.itinerarios.filter (filtroClaim st) ∧
    List.Sublist (getItinerariosFiltrados st) st.itinerarios ∧
    (∀ it : Itinerario, it ∈ getItinerariosFiltrados st ↔
      it ∈ st.itinerarios ∧
      (st.filtroActual = "todos" ∨ it.estado = st.filtroActual) ∧
      (jsTrim st.busqueda = "" ∨
        jsIncludes (jsToLower it.destino) (jsToLower st.busqueda) = true ∨
        jsIncludes (jsToLower it.nombre) (jsToLower st.busqueda) = true)) := by
  refine ⟨filtrados_eq_filter st, ?_, ?_⟩
  · rw [filtrados_eq_filter st]
    exact List.filter_sublist _
  · intro it
    rw [filtrados_eq_filter st, List.mem_filter]
    unfold filtroClaim
    simp [or_assoc]

/-- C10: when a search is active (trimmed query non-empty) the match is
computed against the lowercased but untrimmed query, so surrounding
whitespace changes the outcome: `"tokyo "` misses a record with
destination `"Tokyo"` that the trimmed query would hit. -/
theorem c10_busqueda_sin_recorte (st : PageState) (it : Itinerario)
    (h : jsTrim st.busqueda ≠ "") :
    (it ∈ getItinerariosFiltrados st ↔
      it ∈ st.itinerarios ∧
      (st.filtroActual = "todos" ∨ it.estado = st.filtroActual) ∧
      (jsIncludes (jsToLower it.destino) (jsToLower st.busqueda) = true ∨
       jsIncludes (jsToLower it.nombre) (jsToLower st.busqueda) = true)) ∧
    getItinerariosFiltrados
      { itinerarios := [itTokyoDemo], filtroActual := "todos", busqueda := "tokyo " } = [] ∧
    getItinerariosFiltrados
      { itinerarios := [itTokyoDemo], filtroActual := "todos", busqueda := "tokyo" } =
      [itTokyoDemo] := by
  refine ⟨?_, by decide, by decide⟩
  rw [filtrados_eq_filter st, List.mem_filter]
  unfold filtroClaim
  simp [h, or_assoc]

/-! ### Form validation -/

/-- C3: the overall verdict holds iff all four rules of spec section 4.3
hold; each per-field marker reflects exactly its own rule (no
short-circuiting), and the spec's concrete example flags exactly `name`
and `endDate`. -/
theorem c3_validar_form (f : FormRaw) :
    ((validarForm f).2 = true ↔
      (jsTrim f.nombre ≠ "" ∧ jsTrim f.destino ≠ "" ∧ f.fechaInicio ≠ "" ∧
        (f.fechaFin ≠ "" ∧ (f.fechaInicio = "" ∨ jsStrLt f.fechaFin f.fechaInicio = false)))) ∧
    ((validarForm f).1.nombre = true ↔ jsTrim f.nombre = "") ∧
    ((validarForm f).1.destino = true ↔ jsTrim f.destino = "") ∧
    ((validarForm f).1.fechaInicio = true ↔ f.fechaInicio = "") ∧
    ((validarForm f).1.fechaFin = true ↔
      (f.fechaFin = "" ∨ (f.fechaInicio ≠ "" ∧ jsStrLt f.fechaFin f.fechaInicio = true))) ∧
    validarForm
      { nombre := "", destino := "X", fechaInicio := "2026-01-01",
        fechaFin := "2025-12-31", estado := "", budget := "", notas := "" } =
    ({ nombre := true, destino := false, fechaInicio := false, fechaFin := true }, false) := by
  refine ⟨?_, ?_, ?_, ?_, ?_, by decide⟩ <;>
    · simp only [validarForm]
      cases hb : jsStrLt f.fechaFin f.fechaInicio <;> simp [hb] <;> tauto

/-! ### Date invariant over reachable collections -/

theorem fechas_validas_de_guardar (f : FormRaw) (d : DatosCompletos)
    (h : handleGuardarDatos f = some d) :
    jsStrLt d.fechaFin d.fechaInicio = false := by
  unfold handleGuardarDatos at h
  split at h
  · rename_i hv
    obtain rfl : d = _ := (Option.some.injEq _ _).mp h.symm
    cases hlt : jsStrLt f.fechaFin f.fechaInicio
    · rfl
    · exfalso
      simp only [validarForm, hlt] at hv
      simp at hv
      exact hv.1.2 hv.2.2
  · exact absurd h (by simp)

example : handleGuardarDatos formDemo = some datosDemo := by decide

/-- C5: every record of every reachable collection satisfies
`endDate >= startDate` (the JavaScript string comparison
`fechaFin < fechaInicio` is false); the invariant is established by the
empty initial collection and preserved by validated create, validated
edit, and delete. -/
theorem c5_invariante_fechas (st : List Itinerario) (ts : List Nat)
    (h : ReachableT st ts) :
    ∀ it ∈ st, jsStrLt it.fechaFin it.fechaInicio = false := by
  induction h with
  | init => intro it hit; exact absurd hit (List.not_mem_nil it)
  | crear st ts f d t creado hr hg ih =>
    intro it hit
    simp only [crearItinerario, List.mem_cons] at hit
    rcases hit with rfl | hit
    · exact fechas_validas_de_guardar f d hg
    · exact ih it hit
  | editar st ts f d i ahora hr hg ih =>
    intro it hit
    rcases mem_editar i (datosDeCompletos d) ahora st it hit with hmem | ⟨w, hw, rfl⟩
    · exact ih it hmem
    · simpa [mergeDatos, datosDeCompletos] using fechas_validas_de_guardar f d hg
  | eliminar st ts i hr ih =>
    intro it hit
    exact ih it (List.mem_of_mem_filter hit)

/-- C5 witness: the record created from `formDemo` in a reachable
one-step state satisfies the invariant. -/
theorem c5_witness :
    jsStrLt ((crearItinerario datosDemo 1000 "c" []).1).fechaFin
      ((crearItinerario datosDemo 1000 "c" []).1).fechaInicio = false :=
  c5_invariante_fechas (crearItinerario datosDemo 1000 "c" []).2 [1000]
    (ReachableT.crear [] [] formDemo datosDemo 1000 "c" ReachableT.init (by decide))
    (crearItinerario datosDemo 1000 "c" []).1 (List.mem_cons_self _ _)

/-! ### Id generation -/

theorem hexVal_append_digit (l : List Char) (c : Char) :
    hexVal (l ++ [c]) = 16 * hexVal l + hexCharVal c := by
  unfold hexVal
  rw [List.foldl_append]
  rfl

theorem hexCharVal_digitChar : ∀ m, m < 16 → hexCharVal (Nat.digitChar m) = m := by
  decide

theorem natToHexAux_hexVal : ∀ fuel n, n < fuel → hexVal (natToHexAux fuel n) = n := by
  intro fuel
  induction fuel with
  | zero => intro n h; exact absurd h (Nat.not_lt_zero n)
  | succ f ih =>
    intro n h
    by_cases hn : n = 0
    · simp [hn, natToHexAux, hexVal]
    · simp only [natToHexAux, if_neg hn]
      rw [hexVal_append_digit,
        ih (n / 16) (by
          have := Nat.div_lt_self (Nat.pos_of_ne_zero hn) (by norm_num : 1 < 16)
          omega),
        hexCharVal_digitChar (n % 16) (Nat.mod_lt n (by norm_num))]
      omega

theorem string_data_append (s t : String) : (s ++ t).data = s.data ++ t.data := by
  cases s; cases t; rfl

theorem string_ext_data {s t : String} (h : s.data = t.data) : s = t := by
  cases s; cases t; exact congrArg String.mk h

theorem natToHex_injective : Function.Injective natToHex := by
  intro a b h
  unfold natToHex at h
  by_cases ha : a = 0 <;> by_cases hb : b = 0
  · exact ha.trans hb.symm
  · exfalso
    rw [if_pos ha, if_neg hb] at h
    have hval : 0 = hexVal (natToHexAux (b + 1) b) :=
      congrArg (fun s : String => hexVal s.data) h
    rw [natToHexAux_hexVal (b + 1) b (Nat.lt_succ_self b)] at hval
    exact hb hval.symm
  · exfalso
    rw [if_neg ha, if_pos hb] at h
    have hval : hexVal (natToHexAux (a + 1) a) = 0 :=
      congrArg (fun s : String => hexVal s.data) h
    rw [natToHexAux_hexVal (a + 1) a (Nat.lt_succ_self a)] at hval
    exact ha hval
  · rw [if_neg ha, if_neg hb] at h
    have hval : hexVal (natToHexAux (a + 1) a) = hexVal (natToHexAux (b + 1) b) :=
      congrArg (fun s : String => hexVal s.data) h
    rw [natToHexAux_hexVal (a + 1) a (Nat.lt_succ_self a),
      natToHexAux_hexVal (b + 1) b (Nat.lt_succ_self b)] at hval
    exact hval

theorem idDeTiempo_injective : Function.Injective (fun t : Nat => "it_" ++ natToHex t) := by
  intro a b h
  apply natToHex_injective
  apply string_ext_data
  have h2 := congrArg String.data h
  rw [string_data_append, string_data_append] at h2
  exact List.append_cancel_left h2

theorem ids_sublist_de_tiempos (st : List Itinerario) (ts : List Nat)
    (h : ReachableT st ts) :
    List.Sublist (st.map Itinerario.id) (ts.map (fun t => "it_" ++ natToHex t)) := by
  induction h with
  | init => simp
  | crear st ts f d t creado hr hg ih =>
    exact ih.cons₂ ("it_" ++ natToHex t)
  | editar st ts f d i ahora hr hg ih =>
    rw [map_id_editar]
    exact ih
  | eliminar st ts i hr ih =>
    exact List.Sublist.trans (List.Sublist.map _ (List.filter_sublist _)) ih

/-- C7 counterexample: two validated creates in the same millisecond
(`Date.now() = 1000` twice) yield a reachable two-record collection in
which both records carry the id `"it_3e8"`. -/
theorem c7_contraejemplo :
    ReachableT
      (crearItinerario datosDemo 1000 "t2"
        ((crearItinerario datosDemo 1000 "t1" []).2)).2 [1000, 1000] ∧
    ¬ (((crearItinerario datosDemo 1000 "t2"
          ((crearItinerario datosDemo 1000 "t1" []).2)).2).map Itinerario.id).Nodup := by
  constructor
  · exact ReachableT.crear _ _ formDemo datosDemo 1000 "t2"
      (ReachableT.crear _ _ formDemo datosDemo 1000 "t1" ReachableT.init (by decide))
      (by decide)
  · decide

/-- C7 amended: ids of a reachable collection are pairwise distinct
provided the creation timestamps along the derivation are pairwise
distinct (the id is `it_` followed by the hexadecimal rendering of the
timestamp, which is injective; edits preserve ids and deletes only
remove records). -/
theorem c7_ids_distintos (st : List Itinerario) (ts : List Nat)
    (h : ReachableT st ts) (hts : ts.Nodup) :
    (st.map Itinerario.id).Nodup :=
  ((ids_sublist_de_tiempos st ts h).nodup (hts.map idDeTiempo_injective))

/-- C7 witness: a single create at timestamp 1000. -/
theorem c7_witness :
    (((crearItinerario datosDemo 1000 "c1" []).2).map Itinerario.id).Nodup :=
  c7_ids_distintos _ [1000]
    (ReachableT.crear [] [] formDemo datosDemo 1000 "c1" ReachableT.init (by decide))
    (by decide)

/-! ### Budget coercion -/

/-- C6 counterexample: the input `"0"` is numeric (`parseFloat` yields
`0`), yet the coerced budget is the fallback 1500 and not the parsed
value, because `0` is falsy in `parseFloat(...) || 1500`. -/
theorem c6_contraejemplo :
    jsParseFloat "0" = some ⟨0, 1⟩ ∧
    coerceBudget "0" = ⟨1500, 1⟩ ∧
    coerceBudget "0" ≠ ⟨0, 1⟩ := by
  decide

/-- C6 amended: the coerced budget is the fallback 1500 iff the input is
non-numeric (`parseFloat` gives `NaN`), parses to `0`, or parses to the
value 1500 itself; a nonzero parsed value is kept verbatim; and the
budget input never affects whether the form is accepted. -/
theorem c6_presupuesto (s : String) :
    (coerceBudget s = ⟨1500, 1⟩ ↔
      (jsParseFloat s = none ∨
        (∃ x, jsParseFloat s = some x ∧ (x.num = 0 ∨ x = ⟨1500, 1⟩)))) ∧
    (∀ x, jsParseFloat s = some x → x.num ≠ 0 → coerceBudget s = x) ∧
    (∀ g : FormRaw, ∀ b : String,
      (handleGuardarDatos { g with budget := b }).isSome =
        (handleGuardarDatos g).isSome) := by
  refine ⟨?_, ?_, ?_⟩
  · cases h : jsParseFloat s with
    | none => simp [coerceBudget, h]
    | some x =>
      simp only [coerceBudget, h, Option.some.injEq]
      split_ifs with hx <;> simp [hx]
  · intro x hx hnum
    simp [coerceBudget, hx, hnum]
  · intro g b
    rcases g with ⟨n1, n2, n3, n4, n5, n6, n7⟩
    by_cases hv : (validarForm ⟨n1, n2, n3, n4, n5, n6, n7⟩).2 = true
    · have hv2 : (validarForm ⟨n1, n2, n3, n4, n5, b, n7⟩).2 = true := hv
      simp [handleGuardarDatos, hv, hv2]
    · have hv2 : ¬ (validarForm ⟨n1, n2, n3, n4, n5, b, n7⟩).2 = true := hv
      simp [handleGuardarDatos, hv, hv2]

/-- C6 witness: a nonzero numeric input is kept verbatim. -/
theorem c6_witness : coerceBudget "800" = ⟨800, 1⟩ :=
  (c6_presupuesto "800").2.1 ⟨800, 1⟩ (by decide) (by decide)

/-! ### Trip length -/

theorem ceilDiv_mul_self (k : Int) : ceilDiv (k * 86400000) 86400000 = k := by
  unfold ceilDiv
  rw [Int.fdiv_eq_ediv _ (by norm_num)]
  have h : k * 86400000 + 86400000 - 1 = (86400000 - 1) + k * 86400000 := by ring
  rw [h, Int.add_mul_ediv_right _ _ (by norm_num : (86400000 : Int) ≠ 0)]
  have h0 : ((86400000 : Int) - 1) / 86400000 = 0 := by decide
  rw [h0]
  omega

/-- C4: on records whose ISO dates parse and satisfy `endDate >=
startDate`, the derived trip length is the inclusive day difference
`(end − start) + 1`, which is at least 1; in particular a same-day trip
is 1 day and 2026-03-01 to 2026-03-03 is 3 days. -/
theorem c4_calcular_dias (s e : String) (y1 m1 d1 y2 m2 d2 : Nat)
    (hs : parseFechaISO s = some (y1, m1, d1))
    (he : parseFechaISO e = some (y2, m2, d2))
    (hle : diasDesdeEpoch y1 m1 d1 ≤ diasDesdeEpoch y2 m2 d2) :
    calcularDias s e = some (diasDesdeEpoch y2 m2 d2 - diasDesdeEpoch y1 m1 d1 + 1) ∧
    1 ≤ diasDesdeEpoch y2 m2 d2 - diasDesdeEpoch y1 m1 d1 + 1 ∧
    calcularDias "2026-03-01" "2026-03-01" = some 1 ∧
    calcularDias "2026-03-01" "2026-03-03" = some 3 := by
  refine ⟨?_, by omega, by decide, by decide⟩
  unfold calcularDias
  rw [hs, he]
  simp only
  have h : diasDesdeEpoch y2 m2 d2 * 86400000 - diasDesdeEpoch y1 m1 d1 * 86400000 =
      (diasDesdeEpoch y2 m2 d2 - diasDesdeEpoch y1 m1 d1) * 86400000 := by ring
  rw [h, ceilDiv_mul_self]
  congr 1
  omega

/-- C4 witness at the spec's second example. -/
theorem c4_witness : calcularDias "2026-03-01" "2026-03-03" = some 3 :=
  ((c4_calcular_dias "2026-03-01" "2026-03-03" 2026 3 1 2026 3 3
      (by decide) (by decide) (by decide)).1).trans (by decide)

/-- C10 witness at an active search with trailing whitespace. -/
theorem c10_witness :
    getItinerariosFiltrados
      { itinerarios := [itTokyoDemo], filtroActual := "todos", busqueda := "tokyo " } = [] :=
  (c10_busqueda_sin_recorte
    { itinerarios := [itTokyoDemo], filtroActual := "todos", busqueda := "tokyo " }
    itTokyoDemo (by decide)).2.1
